import Mathlib

/-
  Verification development for the stock-updater repository.

  The repository contains two near-duplicate pipeline variants:
  `secondStockUpdater.py` (namespace `Second` below) and
  `seleniumToShopifyUpdater.py` (namespace `Selenium` below).
  Both share the shape: read a delimited feed, detect encoding/delimiter,
  extract (sku, quantity) rows, join them against a SKU -> inventory-item
  index fetched from a paginated remote catalog, and push batched
  `inventorySetQuantities` mutations.

  Embedding conventions:
  * The byte-level decoding step (`chardet.detect` + `bytes.decode(enc,
    errors='replace')`) is total by construction (replacement characters,
    never raising), so the embedding starts from the decoded string.
  * A pandas cell is `Option String`: `none` models NaN (produced by an
    empty field or a missing column of a short row); `some s` models the
    raw field string.  `str()` of NaN is the literal "nan", `int()` of NaN
    raises.  For the integral cells used in the concrete inputs below,
    pandas dtype inference gives the same `int(row[i])` results as parsing
    the raw field string, which is how `pyInt` models it.
  * Python exceptions that escape a function are modelled with
    `Except String` (the string names the exception class).
  * All string work is done over `List Char` with structural recursion so
    that concrete instances reduce by `decide`/`rfl`.
-/

namespace StockUpdater

/-- Model of Python `str(cell)` for a pandas cell: `str(float('nan'))`
is the literal string `"nan"`; an object cell prints its own content. -/
def pyStr (c : Option String) : String :=
  match c with
  | none => "nan"
  | some s => s

/-- Model of Python `str.strip()` (whitespace from both ends). -/
def pyStrip (s : String) : String :=
  String.mk (((s.toList.dropWhile Char.isWhitespace).reverse.dropWhile
    Char.isWhitespace).reverse)

/-- Split a character list at every occurrence of `sep`, keeping empty
segments — the semantics of Python `str.split(sep)` with a one-character
separator.  Always returns a non-empty list of segments. -/
def splitChar (sep : Char) : List Char → List (List Char)
  | [] => [[]]
  | c :: rest =>
    match splitChar sep rest with
    | [] => [[c]]
    | g :: gs => if c = sep then [] :: g :: gs else (c :: g) :: gs

/-- Value of a non-empty digit string, `none` if any character is not an
ASCII digit. -/
def digitsVal (cs : List Char) : Option Int :=
  if cs = [] then none
  else if cs.all Char.isDigit then
    some (cs.foldl (fun a c => a * 10 + ((c.toNat : Int) - 48)) 0)
  else none

/-- Model of Python `int(s)` on a string: strip whitespace, optional
sign, then decimal digits; anything else raises (returns `none`).
(Python additionally accepts underscore digit separators and non-ASCII
digits; no input in this development uses them.) -/
def pyInt (s : String) : Option Int :=
  match (pyStrip s).toList with
  | [] => none
  | '-' :: cs => (digitsVal cs).map (fun n => -n)
  | '+' :: cs => digitsVal cs
  | cs => digitsVal cs

/-- Model of Python `int(cell)` on a pandas cell: `int(float('nan'))`
raises, so a NaN cell yields `none`. -/
def pyIntCell (c : Option String) : Option Int :=
  match c with
  | none => none
  | some s => pyInt s

/-- Model of `sample.count(c)` for a single character. -/
def countChar (s : String) (c : Char) : Nat :=
  s.toList.count c

/-- Delimiter detection, transliterating both variants
(`secondStockUpdater.py` lines 128-133, `seleniumToShopifyUpdater.py`
lines 199-204): semicolon beats comma first, then tab beats comma,
otherwise comma. -/
def detectSep (sample : String) : Char :=
  if countChar sample ';' > countChar sample ',' then ';'
  else if countChar sample '\t' > countChar sample ',' then '\t'
  else ','

/-- The decoded leading sample (source: `raw[:2048].decode(...)`); the
embedding samples the first 2048 decoded characters, which coincides
with the byte count for the ASCII inputs used here. -/
def sampleOf (content : String) : String :=
  String.mk (content.toList.take 2048)

/-- Model of `pandas.read_csv(StringIO(content), sep=sep, header=None)`:
blank lines are skipped; an input with no remaining lines raises
`EmptyDataError`; the first line fixes the column count; a later line
with more fields raises `ParserError` (C tokenizer); shorter lines are
padded with NaN; an empty field becomes NaN. -/
def pdReadCsv (content : String) (sep : Char) :
    Except String (List (List (Option String))) :=
  let lines := (splitChar '\n' content.toList).filter (fun l => l ≠ [])
  match lines with
  | [] => Except.error "EmptyDataError"
  | first :: _ =>
    let width := (splitChar sep first).length
    let rows := lines.map (fun l => splitChar sep l)
    if rows.all (fun r => r.length ≤ width) then
      Except.ok (rows.map (fun r =>
        (r.map (fun f => if f = [] then none else some (String.mk f)))
          ++ List.replicate (width - r.length) none))
    else Except.error "ParserError"

/-- The Text Normalizer applied to the decoded feed content: detect the
delimiter on the leading sample, then parse the full content. -/
def normalizeRows (content : String) :
    Except String (List (List (Option String))) :=
  pdReadCsv content (detectSep (sampleOf content))

/-- A value of the catalog index: `{"inventoryItemId": ..., "title": ...}`. -/
structure Entry where
  inventoryItemId : String
  title : String
deriving DecidableEq, Repr

/-- The SKU -> Entry index, as an insertion-ordered association list
modelling the Python dict. -/
abbrev Catalog := List (String × Entry)

/-- Dict lookup (`valid_skus[sku]`, `sku in valid_skus`). -/
def lookupSku : Catalog → String → Option Entry
  | [], _ => none
  | (k, e) :: rest, s => if k = s then some e else lookupSku rest s

/-- Dict assignment `m[k] = e`: overwrite in place if the key exists
(keeping its position, as a Python dict does), otherwise append. -/
def insertEntry : Catalog → String → Entry → Catalog
  | [], k, e => [(k, e)]
  | (k0, e0) :: rest, k, e =>
    if k0 = k then (k, e) :: rest else (k0, e0) :: insertEntry rest k e

/-- An update record prepared by `read_csv`.  The selenium variant's
dict has no `"title"` key; it is embedded with an empty `title`, which
no downstream definition reads. -/
structure Update where
  sku : String
  quantity : Int
  inventoryItemId : String
  title : String
deriving DecidableEq, Repr

/-- Decidable equality of `Except` results, so concrete pipeline runs
can be checked by `decide`. -/
instance exceptDecEq {ε α : Type} [DecidableEq ε] [DecidableEq α] :
    DecidableEq (Except ε α) := fun x y =>
  match x, y with
  | Except.error a, Except.error b =>
    if h : a = b then isTrue (by rw [h])
    else isFalse (by intro hc; cases hc; exact h rfl)
  | Except.ok a, Except.ok b =>
    if h : a = b then isTrue (by rw [h])
    else isFalse (by intro hc; cases hc; exact h rfl)
  | Except.error _, Except.ok _ => isFalse (by intro hc; cases hc)
  | Except.ok _, Except.error _ => isFalse (by intro hc; cases hc)

/-- A row as delivered by the normalizer: one pandas cell per column. -/
abbrev Row := List (Option String)

/-- Cell access `row[i]`: a present cell, NaN, or (when `i` is past the row width)
a KeyError.  Both places the extractors index past the width are inside
`try`/`except` blocks that treat KeyError exactly like an unparsable
cell, so both are collapsed to `none` here; column 0 always exists on
rows produced by `pdReadCsv`. -/
def cellAt (r : Row) (i : Nat) : Option String :=
  (r.get? i).getD none

namespace Second

/-- Row handling of `secondStockUpdater.read_csv` (lines 139-158):
sku from column 0, quantity parsed from column 2, quantities outside
`[0, 1_000_000]` invalidated, emit only when the SKU is in the index. -/
def extractRow (valid : Catalog) (r : Row) : Option Update :=
  let sku := pyStrip (pyStr (cellAt r 0))
  let q0 := pyIntCell (cellAt r 2)
  let qty := q0.bind (fun q => if q < 0 ∨ q > 1000000 then none else some q)
  match lookupSku valid sku, qty with
  | some e, some q => some ⟨sku, q, e.inventoryItemId, e.title⟩
  | _, _ => none

/-- The row loop of `secondStockUpdater.read_csv`: accumulate updates in
row order, count every non-emitted row as skipped. -/
def read_csv : List Row → Catalog → List Update × Nat
  | [], _ => ([], 0)
  | r :: rs, valid =>
    let rest := read_csv rs valid
    match extractRow valid r with
    | some u => (u :: rest.1, rest.2)
    | none => (rest.1, rest.2 + 1)

end Second

namespace Selenium

/-- Row handling of `seleniumToShopifyUpdater.read_csv` (lines 209-224):
sku from column 0, quantity parsed from column 1, and no range check of
any kind on the parsed quantity. -/
def extractRow (valid : Catalog) (r : Row) : Option Update :=
  let sku := pyStrip (pyStr (cellAt r 0))
  let qty := pyIntCell (cellAt r 1)
  match lookupSku valid sku, qty with
  | some e, some q => some ⟨sku, q, e.inventoryItemId, ""⟩
  | _, _ => none

/-- The row loop of `seleniumToShopifyUpdater.read_csv`. -/
def read_csv : List Row → Catalog → List Update × Nat
  | [], _ => ([], 0)
  | r :: rs, valid =>
    let rest := read_csv rs valid
    match extractRow valid r with
    | some u => (u :: rest.1, rest.2)
    | none => (rest.1, rest.2 + 1)

end Selenium

/-- Normalizer followed by the second variant's extractor. -/
def pipelineSecond (content : String) (valid : Catalog) :
    Except String (List Update × Nat) :=
  (normalizeRows content).map (fun rows => Second.read_csv rows valid)

/-- Normalizer followed by the selenium variant's extractor. -/
def pipelineSelenium (content : String) (valid : Catalog) :
    Except String (List Update × Nat) :=
  (normalizeRows content).map (fun rows => Selenium.read_csv rows valid)

/- ### Catalog Index Builder -/

/-- One variant node of a products page (`node { sku inventoryItem { id } }`). -/
structure Variant where
  sku : String
  inventoryItemId : String
deriving DecidableEq, Repr

/-- One product edge of a products page. -/
structure Product where
  title : String
  variants : List Variant
deriving DecidableEq, Repr

/-- The `data` object of a products-page response. -/
structure PageData where
  edges : List Product
  hasNextPage : Bool
deriving DecidableEq, Repr

/-- One HTTP response to a products-page query.  `statusOk` is whether
`raise_for_status()` passes; `hasErrors` is whether the JSON body has a
top-level `"errors"` key; `data` is the `"data"` object when present. -/
structure Page where
  statusOk : Bool
  hasErrors : Bool
  data : Option PageData
deriving DecidableEq, Repr

/-- The per-page accumulation loop shared by both variants: for each
variant with a truthy (non-empty) sku, `inventory_map[sku.strip()] =
{"inventoryItemId": ..., "title": ...}`. -/
def insertProducts (m : Catalog) (ps : List Product) : Catalog :=
  ps.foldl (fun m p =>
    p.variants.foldl (fun m v =>
      if v.sku ≠ "" then
        insertEntry m (pyStrip v.sku) ⟨v.inventoryItemId, p.title⟩
      else m) m) m

namespace Second

/-- Embedding of `secondStockUpdater.fetch_inventory_items` (lines 64-113) run against
a list of successive page responses: `raise_for_status` aborts on a bad
status; a body with a top-level `"errors"` key breaks out of the loop,
returning the partial map; a missing `"data"` object degrades to no
edges and no next page via the `.get(..., {})` chains. -/
def fetch_inventory_items (m : Catalog) : List Page → Except String Catalog
  | [] => Except.ok m
  | p :: rest =>
    if !p.statusOk then Except.error "HTTPError"
    else if p.hasErrors then Except.ok m
    else
      let edges := match p.data with | none => [] | some pd => pd.edges
      let m2 := insertProducts m edges
      let hasNext := match p.data with | none => false | some pd => pd.hasNextPage
      if hasNext then fetch_inventory_items m2 rest else Except.ok m2

end Second

namespace Selenium

/-- Embedding of `seleniumToShopifyUpdater.fetch_inventory_items` (lines 138-185):
no check for a top-level `"errors"` key; the body is accessed as
`data["data"]["products"]`, so a response without a usable `"data"`
object raises. -/
def fetch_inventory_items (m : Catalog) : List Page → Except String Catalog
  | [] => Except.ok m
  | p :: rest =>
    if !p.statusOk then Except.error "HTTPError"
    else match p.data with
      | none => Except.error "KeyError"
      | some pd =>
        let m2 := insertProducts m pd.edges
        if pd.hasNextPage then fetch_inventory_items m2 rest else Except.ok m2

end Selenium

/- ### Batched Mutator -/

/-- Model of `used, max_calls = map(int, limit.split("/"))`: succeeds
only when the split yields exactly two segments and both parse as
integers; any other shape raises into the `except` branch. -/
def parseLimit (s : String) : Option (Int × Int) :=
  match (splitChar '/' s.toList).map (fun cs => pyInt (String.mk cs)) with
  | [some u, some m] => some (u, m)
  | _ => none

/-- The batch slicing of `update_inventory`: `for i in range(0,
len(updates), batch_size): batch = updates[i:i+batch_size]`, written
over the batch indices `0, B, 2B, ...` (there are `ceil(N/B)` of them,
exactly the length of `range(0, N, B)` for `B > 0`). -/
def batches (B : Nat) (l : List Update) : List (List Update) :=
  (List.range ((l.length + B - 1) / B)).map (fun i => (l.drop (i * B)).take B)

namespace Second

/-- Embedding of `secondStockUpdater.throttle_sleep` (lines 179-188), returning the
slept duration in seconds.  A missing header defaults to `"0/0"`; a
header that fails to split into exactly two integers takes the `except`
branch; `max_calls == 0` short-circuits the division.  Python compares
`used / max_calls` as floats against the literal `0.8`; the embedding
compares the exact rationals, which agree at every realistic header. -/
def throttle_sleep (header : Option String) : ℚ :=
  match parseLimit (header.getD "0/0") with
  | none => 1/2
  | some (u, m) => if m = 0 ∨ (u : ℚ) / (m : ℚ) ≤ 8/10 then 1/2 else 2

/-- The body of the batch loop of `secondStockUpdater.update_inventory`
(lines 196-223): the `i`-th request's `userErrors` list is `resp i`;
a non-empty list adds its length to the error total and counts nothing
as applied; an empty list counts every item of the batch as applied.
All responses are assumed transport-successful (`raise_for_status`). -/
def runBatches (resp : Nat → List String) :
    List (List Update) → Nat → Nat × Nat
  | [], _ => (0, 0)
  | b :: bs, i =>
    let rest := runBatches resp bs (i + 1)
    if (resp i).isEmpty then (b.length + rest.1, rest.2)
    else (rest.1, (resp i).length + rest.2)

/-- Embedding of `secondStockUpdater.update_inventory` run against a response
assignment: returns `(total_updated, total_errors)`. -/
def update_inventory (updates : List Update) (B : Nat)
    (resp : Nat → List String) : Nat × Nat :=
  runBatches resp (batches B updates) 0

end Second

/- ### Remote-state semantics of the mutation -/

/-- One element of the `quantities` array of an
`inventorySetQuantities` request. -/
structure QuantityEntry where
  inventoryItemId : String
  locationId : String
  quantity : Int
deriving DecidableEq, Repr

/-- The quantity entry built from one update record
(`{"inventoryItemId": ..., "locationId": location_gid, "quantity": ...}`). -/
def toEntry (loc : String) (u : Update) : QuantityEntry :=
  ⟨u.inventoryItemId, loc, u.quantity⟩

/-- The sequence of mutation requests issued for an update set: one
request per batch, in batch order. -/
def requestsOf (updates : List Update) (B : Nat) (loc : String) :
    List (List QuantityEntry) :=
  (batches B updates).map (fun b => b.map (toEntry loc))

/-- Remote inventory state: (inventoryItemId, locationId) -> quantity. -/
def RState := String × String → Int

/-- Effect of one quantity entry with `ignoreCompareQuantity: True` and
`name: "available"`: an unconditional absolute set. -/
def applyEntry (s : RState) (e : QuantityEntry) : RState :=
  fun k => if k = (e.inventoryItemId, e.locationId) then e.quantity else s k

/-- Effect of one mutation request (its entries in order). -/
def applySeq (s : RState) (es : List QuantityEntry) : RState :=
  es.foldl applyEntry s

/-- Remote state after a full `update_inventory` run. -/
def applyRun (s : RState) (updates : List Update) (B : Nat) (loc : String) :
    RState :=
  (requestsOf updates B loc).foldl applySeq s

/-- The state cell a quantity entry writes. -/
def keyOf (e : QuantityEntry) : String × String :=
  (e.inventoryItemId, e.locationId)

/- ### Helper lemmas -/

theorem ceil_mul_ge (B : Nat) (hB : 0 < B) (n : Nat) :
    n ≤ (n + B - 1) / B * B := by
  have e := Nat.mod_add_div (n + B - 1) B
  have hlt : (n + B - 1) % B < B := Nat.mod_lt _ hB
  rw [Nat.mul_comm]
  omega

theorem chunks_flatten (B : Nat) (hB : 0 < B) :
    ∀ (n : Nat) (l : List Update), l.length ≤ n * B →
      ((List.range n).map (fun i => (l.drop (i * B)).take B)).flatten = l := by
  intro n
  induction n with
  | zero =>
    intro l h
    simp only [Nat.zero_mul, Nat.le_zero] at h
    simp [List.length_eq_zero.mp h]
  | succ n ih =>
    intro l h
    have hmap : ((List.range n).map Nat.succ).map (fun i => (l.drop (i * B)).take B)
        = (List.range n).map (fun i => ((l.drop B).drop (i * B)).take B) := by
      rw [List.map_map]
      refine List.map_congr_left ?_
      intro i _
      show (l.drop (Nat.succ i * B)).take B = ((l.drop B).drop (i * B)).take B
      rw [List.drop_drop, Nat.succ_mul, Nat.add_comm]
    have hlen : (l.drop B).length ≤ n * B := by
      rw [List.length_drop]
      have : l.length ≤ n * B + B := by
        calc l.length ≤ Nat.succ n * B := h
        _ = n * B + B := Nat.succ_mul n B
      omega
    rw [List.range_succ_eq_map]
    simp only [List.map_cons, List.flatten_cons, Nat.zero_mul, List.drop_zero]
    rw [hmap, ih (l.drop B) hlen]
    exact List.take_append_drop B l

theorem batches_flatten (B : Nat) (hB : 0 < B) (l : List Update) :
    (batches B l).flatten = l := by
  unfold batches
  exact chunks_flatten B hB _ l (ceil_mul_ge B hB l.length)

theorem batches_length_eq (B : Nat) (l : List Update) :
    (batches B l).length = (l.length + B - 1) / B := by
  simp [batches]

theorem batches_size_le (B : Nat) (l : List Update) :
    ∀ b ∈ batches B l, b.length ≤ B := by
  intro b hb
  simp only [batches, List.mem_map, List.mem_range] at hb
  obtain ⟨i, _, rfl⟩ := hb
  simp only [List.length_take]
  omega

theorem applySeq_append (s : RState) (a b : List QuantityEntry) :
    applySeq s (a ++ b) = applySeq (applySeq s a) b :=
  List.foldl_append _ _ _ _

theorem foldl_applySeq_flatten (L : List (List QuantityEntry)) (s : RState) :
    L.foldl applySeq s = applySeq s L.flatten := by
  induction L generalizing s with
  | nil => rfl
  | cons a L ih =>
    simp only [List.foldl_cons, List.flatten_cons, applySeq_append]
    exact ih _

theorem applyRun_eq (s : RState) (us : List Update) (B : Nat) (loc : String)
    (hB : 0 < B) :
    applyRun s us B loc = applySeq s (us.map (toEntry loc)) := by
  unfold applyRun requestsOf
  rw [foldl_applySeq_flatten, ← List.map_flatten, batches_flatten B hB]

theorem applySeq_not_mem (es : List QuantityEntry) (s : RState)
    (k : String × String) (h : ∀ e ∈ es, keyOf e ≠ k) :
    applySeq s es k = s k := by
  induction es generalizing s with
  | nil => rfl
  | cons e es ih =>
    show applySeq (applyEntry s e) es k = s k
    rw [ih (applyEntry s e) (fun e' he' => h e' (List.mem_cons_of_mem _ he'))]
    have h1 : keyOf e ≠ k := h e (List.mem_cons_self _ _)
    exact if_neg (fun hk => h1 hk.symm)

theorem applySeq_mem (es : List QuantityEntry) (k : String × String)
    (h : ∃ e ∈ es, keyOf e = k) :
    ∀ s t : RState, applySeq s es k = applySeq t es k := by
  induction es with
  | nil => simp at h
  | cons e es ih =>
    intro s t
    show applySeq (applyEntry s e) es k = applySeq (applyEntry t e) es k
    by_cases hmem : ∃ e' ∈ es, keyOf e' = k
    · exact ih hmem _ _
    · have hk : keyOf e = k := by
        obtain ⟨e', he', hke⟩ := h
        rcases List.mem_cons.mp he' with rfl | hmem'
        · exact hke
        · exact absurd ⟨e', hmem', hke⟩ hmem
      have hall : ∀ e' ∈ es, keyOf e' ≠ k := by
        intro e' he' hke
        exact hmem ⟨e', he', hke⟩
      rw [applySeq_not_mem es _ k hall, applySeq_not_mem es _ k hall]
      subst hk
      simp [applyEntry, keyOf]

theorem sum_enumFrom_snd (bs : List (List Update)) :
    ∀ i : Nat, ((bs.enumFrom i).map (fun p => p.2.length)).sum
      = (bs.map List.length).sum := by
  induction bs with
  | nil => intro i; rfl
  | cons b bs ih => intro i; simp [List.enumFrom_cons, ih]

theorem runBatches_eq (resp : Nat → List String) :
    ∀ (bs : List (List Update)) (i : Nat),
      Second.runBatches resp bs i
        = (((bs.enumFrom i).map
              (fun p => if (resp p.1).isEmpty then p.2.length else 0)).sum,
           ((bs.enumFrom i).map
              (fun p => if (resp p.1).isEmpty then 0 else (resp p.1).length)).sum) := by
  intro bs
  induction bs with
  | nil => intro i; rfl
  | cons b bs ih =>
    intro i
    by_cases hr : (resp i).isEmpty
    · simp only [Second.runBatches, ih (i + 1), List.enumFrom_cons, List.map_cons,
        List.sum_cons, if_pos hr, Nat.zero_add]
    · simp only [Second.runBatches, ih (i + 1), List.enumFrom_cons, List.map_cons,
        List.sum_cons, if_neg hr, Nat.zero_add]

theorem throttle_sleep_eq_none {h : Option String}
    (hp : parseLimit (h.getD "0/0") = none) :
    Second.throttle_sleep h = 1/2 := by
  rw [Second.throttle_sleep, hp]

theorem throttle_sleep_eq_some {h : Option String} {u m : Int}
    (hp : parseLimit (h.getD "0/0") = some (u, m)) :
    Second.throttle_sleep h
      = if m = 0 ∨ (u : ℚ) / (m : ℚ) ≤ 8/10 then 1/2 else 2 := by
  rw [Second.throttle_sleep, hp]

theorem extractRow_bound_second (valid : Catalog) (r : Row) (u : Update)
    (h : Second.extractRow valid r = some u) :
    0 ≤ u.quantity ∧ u.quantity ≤ 1000000 := by
  simp only [Second.extractRow] at h
  rcases hq : pyIntCell (cellAt r 2) with _ | q <;> rw [hq] at h
  · rcases hl : lookupSku valid (pyStrip (pyStr (cellAt r 0))) with _ | e <;>
      rw [hl] at h <;> simp at h
  · rcases hl : lookupSku valid (pyStrip (pyStr (cellAt r 0))) with _ | e <;>
      rw [hl] at h
    · simp at h
    · simp only [Option.some_bind] at h
      by_cases hb : q < 0 ∨ q > 1000000
      · rw [if_pos hb] at h
        simp at h
      · rw [if_neg hb] at h
        rw [not_or] at hb
        have hq2 : u.quantity = q := by
          have h3 := congrArg (fun o => (Option.getD o ⟨"", 0, "", ""⟩).quantity) h
          simpa using h3.symm
        rw [hq2]
        exact ⟨le_of_not_lt hb.1, le_of_not_lt hb.2⟩

theorem read_csv_counts (valid : Catalog) :
    ∀ rows : List Row,
      (Second.read_csv rows valid).1.length + (Second.read_csv rows valid).2
          = rows.length
      ∧ (Selenium.read_csv rows valid).1.length + (Selenium.read_csv rows valid).2
          = rows.length := by
  intro rows
  induction rows with
  | nil => exact ⟨rfl, rfl⟩
  | cons r rs ih =>
    obtain ⟨ih1, ih2⟩ := ih
    refine ⟨?_, ?_⟩
    · rcases h : Second.extractRow valid r with _ | u <;>
        simp [Second.read_csv, h] <;> omega
    · rcases h : Selenium.extractRow valid r with _ | u <;>
        simp [Selenium.read_csv, h] <;> omega

theorem applySeq_idem (s : RState) (es : List QuantityEntry) :
    applySeq (applySeq s es) es = applySeq s es := by
  funext k
  by_cases h : ∃ e ∈ es, keyOf e = k
  · exact applySeq_mem es k h _ _
  · push_neg at h
    exact applySeq_not_mem es _ k h

end StockUpdater

namespace StockUpdater

/- ### Claim theorems -/

/-- C9: for every update set and every batch size `B > 0`, the mutator
issues exactly `ceil(N/B)` batch requests, each of size at most `B`, and
the batches are contiguous slices covering every record exactly once in
the original order (their concatenation is the input sequence). -/
theorem batch_partition (updates : List Update) (B : Nat) (hB : 0 < B) :
    (batches B updates).length = (updates.length + B - 1) / B
    ∧ (∀ b ∈ batches B updates, b.length ≤ B)
    ∧ (batches B updates).flatten = updates :=
  ⟨batches_length_eq B updates, batches_size_le B updates,
   batches_flatten B hB updates⟩

/-- Witness for `batch_partition` at a five-record set and batch size 2. -/
theorem batch_partition_witness :
    0 < 2
    ∧ (batches 2 [⟨"a", 1, "i1", ""⟩, ⟨"b", 2, "i2", ""⟩, ⟨"c", 3, "i3", ""⟩,
        ⟨"d", 4, "i4", ""⟩, ⟨"e", 5, "i5", ""⟩]).flatten
      = [⟨"a", 1, "i1", ""⟩, ⟨"b", 2, "i2", ""⟩, ⟨"c", 3, "i3", ""⟩,
        ⟨"d", 4, "i4", ""⟩, ⟨"e", 5, "i5", ""⟩] :=
  ⟨by decide,
   (batch_partition [⟨"a", 1, "i1", ""⟩, ⟨"b", 2, "i2", ""⟩, ⟨"c", 3, "i3", ""⟩,
      ⟨"d", 4, "i4", ""⟩, ⟨"e", 5, "i5", ""⟩] 2 (by decide)).2.2⟩

/-- C8: with the remote inventory modelled as a mapping from
(inventory item, location) to quantity and every batch mutation an
absolute quantity set with the compare-quantity guard bypassed
(`ignoreCompareQuantity: True`), applying the same update set twice in a
row yields the same final remote state as applying it once. -/
theorem mutation_idempotent (s : RState) (updates : List Update) (B : Nat)
    (loc : String) (hB : 0 < B) :
    applyRun (applyRun s updates B loc) updates B loc
      = applyRun s updates B loc := by
  rw [applyRun_eq _ _ _ _ hB, applyRun_eq _ _ _ _ hB]
  exact applySeq_idem s _

/-- Witness for `mutation_idempotent` at a two-record set, the default
batch size 250, and the empty remote state. -/
theorem mutation_idempotent_witness :
    0 < 250
    ∧ applyRun (applyRun (fun _ => 0) [⟨"A1", 10, "item1", ""⟩,
        ⟨"C3", 70, "item3", ""⟩] 250 "L") [⟨"A1", 10, "item1", ""⟩,
        ⟨"C3", 70, "item3", ""⟩] 250 "L"
      = applyRun (fun _ => 0) [⟨"A1", 10, "item1", ""⟩,
        ⟨"C3", 70, "item3", ""⟩] 250 "L" :=
  ⟨by decide,
   mutation_idempotent (fun _ => 0) [⟨"A1", 10, "item1", ""⟩,
     ⟨"C3", 70, "item3", ""⟩] 250 "L" (by decide)⟩

/-- C4 counterexample: a single batch of two items whose response
carries one userError.  The claim demands that exactly the errored item
be excluded, so the error-free item should still be counted (applied
would be 1); the code counts nothing of an errored batch as applied. -/
theorem user_errors_discard_whole_batch :
    Second.update_inventory [⟨"A1", 10, "item1", ""⟩, ⟨"C3", 70, "item3", ""⟩]
        250 (fun i => if i = 0 then ["err"] else [])
      = (0, 1) := by decide

/-- C4 amended: for every batch whose response carries a non-empty
userErrors list, NO item of that batch is counted as applied and the
errors are added to the error count; a batch with an empty userErrors
list has every item counted as applied; every batch is submitted exactly
once with no retry (the totals are sums over all issued batches), and
when every response is error-free the applied count is the whole update
set. -/
theorem update_inventory_accounting (updates : List Update) (B : Nat)
    (resp : Nat → List String) (hB : 0 < B) :
    (Second.update_inventory updates B resp).1
        = (((batches B updates).enumFrom 0).map
            (fun p => if (resp p.1).isEmpty then p.2.length else 0)).sum
    ∧ (Second.update_inventory updates B resp).2
        = (((batches B updates).enumFrom 0).map
            (fun p => if (resp p.1).isEmpty then 0 else (resp p.1).length)).sum
    ∧ ((∀ i, resp i = []) →
        Second.update_inventory updates B resp = (updates.length, 0)) := by
  have h := runBatches_eq resp (batches B updates) 0
  refine ⟨by rw [Second.update_inventory, h], by rw [Second.update_inventory, h], ?_⟩
  intro hresp
  rw [Second.update_inventory, h]
  have e1 : ((batches B updates).enumFrom 0).map
        (fun p => if (resp p.1).isEmpty then p.2.length else 0)
      = ((batches B updates).enumFrom 0).map (fun p => p.2.length) :=
    List.map_congr_left (fun p _ => by rw [hresp p.1]; rfl)
  have e2 : ((batches B updates).enumFrom 0).map
        (fun p => if (resp p.1).isEmpty then 0 else (resp p.1).length)
      = ((batches B updates).enumFrom 0).map (fun _ => (0 : Nat)) :=
    List.map_congr_left (fun p _ => by rw [hresp p.1]; rfl)
  rw [e1, e2, sum_enumFrom_snd, ← List.length_flatten, batches_flatten B hB]
  simp

/-- Witness for `update_inventory_accounting`: two records, batch size
250, all responses error-free, whole set applied. -/
theorem update_inventory_accounting_witness :
    0 < 250
    ∧ Second.update_inventory [⟨"A1", 10, "item1", ""⟩, ⟨"C3", 70, "item3", ""⟩]
        250 (fun _ => []) = (2, 0) :=
  ⟨by decide,
   by
     have h := (update_inventory_accounting [⟨"A1", 10, "item1", ""⟩,
       ⟨"C3", 70, "item3", ""⟩] 250 (fun _ => []) (by decide)).2.2 (fun _ => rfl)
     simpa using h⟩

/-- C2 counterexample: a missing rate-limit header takes the default
`"0/0"`, hits the `max_calls == 0` branch, and sleeps the SHORTER
interval (0.5s), where the claim demands the longer one (2s). -/
theorem throttle_missing_header_short :
    Second.throttle_sleep none = 1/2 ∧ ((1 : ℚ)/2 ≠ 2) := by
  constructor
  · have hp : parseLimit ((none : Option String).getD "0/0") = some (0, 0) := by
      decide
    rw [Second.throttle_sleep, hp]
    norm_num
  · norm_num

/-- C2 amended: the pacing pause is the longer interval (2s) exactly
when the header is present and splits into two integers `used/max` with
`max ≠ 0` and `used/max > 0.8`; in every other case — ratio at most 0.8,
`max = 0`, missing header (default `"0/0"`), or unparsable header — it
is the shorter interval (0.5s).  Header `95/100` gives the longer
interval and `10/100` the shorter one. -/
theorem throttle_characterization (h : Option String) :
    (Second.throttle_sleep h = 2 ↔
      ∃ u m : Int, parseLimit (h.getD "0/0") = some (u, m) ∧ m ≠ 0
        ∧ (8 : ℚ)/10 < (u : ℚ) / (m : ℚ))
    ∧ (Second.throttle_sleep h = 2 ∨ Second.throttle_sleep h = 1/2)
    ∧ Second.throttle_sleep (some "95/100") = 2
    ∧ Second.throttle_sleep (some "10/100") = 1/2 := by
  have h95 : parseLimit ((some "95/100").getD "0/0") = some (95, 100) := by decide
  have h10 : parseLimit ((some "10/100").getD "0/0") = some (10, 100) := by decide
  refine ⟨?_, ?_, ?_, ?_⟩
  · rcases hp : parseLimit (h.getD "0/0") with _ | ⟨u, m⟩
    · rw [throttle_sleep_eq_none hp]
      constructor
      · intro h2; norm_num at h2
      · rintro ⟨u, m, hm, _⟩
        simp at hm
    · rw [throttle_sleep_eq_some hp]
      by_cases hc : m = 0 ∨ (u : ℚ) / (m : ℚ) ≤ 8/10
      · rw [if_pos hc]
        constructor
        · intro h2; norm_num at h2
        · rintro ⟨u', m', heq, hm0, hgt⟩
          obtain ⟨rfl, rfl⟩ : u = u' ∧ m = m' := by simpa using heq
          rcases hc with hc | hc
          · exact absurd hc hm0
          · exact absurd hgt (not_lt.mpr hc)
      · rw [if_neg hc]
        push_neg at hc
        exact ⟨fun _ => ⟨u, m, rfl, hc.1, hc.2⟩, fun _ => rfl⟩
  · rcases hp : parseLimit (h.getD "0/0") with _ | ⟨u, m⟩
    · right; exact throttle_sleep_eq_none hp
    · rw [throttle_sleep_eq_some hp]
      by_cases hc : m = 0 ∨ (u : ℚ) / (m : ℚ) ≤ 8/10
      · right; rw [if_pos hc]
      · left; rw [if_neg hc]
  · rw [throttle_sleep_eq_some h95, if_neg (by norm_num)]
  · rw [throttle_sleep_eq_some h10, if_pos (Or.inr (by norm_num))]

/-- C3 counterexample: in the sample `";;\t\t\t"` the tab has the
strictly highest count of the three candidate delimiters, yet the
detector chooses the semicolon (it only ever compares against the comma
count). -/
theorem tab_majority_not_chosen :
    countChar ";;\t\t\t" '\t' > countChar ";;\t\t\t" ';'
    ∧ countChar ";;\t\t\t" '\t' > countChar ";;\t\t\t" ','
    ∧ detectSep ";;\t\t\t" = ';' := by decide

/-- C3 amended: the delimiter choice compares semicolon and tab counts
against the comma count only, in that order: semicolon wins iff it
strictly beats the comma; otherwise tab wins iff it strictly beats the
comma; otherwise the comma is chosen (in particular on all ties with
the comma). -/
theorem detectSep_characterization (sample : String) :
    (detectSep sample = ';' ↔ countChar sample ';' > countChar sample ',')
    ∧ (detectSep sample = '\t' ↔
        countChar sample ';' ≤ countChar sample ','
        ∧ countChar sample '\t' > countChar sample ',')
    ∧ (detectSep sample = ',' ↔
        countChar sample ';' ≤ countChar sample ','
        ∧ countChar sample '\t' ≤ countChar sample ',') := by
  rw [detectSep]
  by_cases h1 : countChar sample ';' > countChar sample ','
  · rw [if_pos h1]
    refine ⟨⟨fun _ => h1, fun _ => rfl⟩, ⟨fun he => ?_, fun hc => ?_⟩,
      ⟨fun he => ?_, fun hc => ?_⟩⟩
    · exact absurd he (by decide)
    · omega
    · exact absurd he (by decide)
    · omega
  · rw [if_neg h1]
    by_cases h2 : countChar sample '\t' > countChar sample ','
    · rw [if_pos h2]
      refine ⟨⟨fun he => absurd he.symm (by decide), fun hc => by omega⟩,
        ⟨fun _ => ⟨by omega, h2⟩, fun _ => rfl⟩,
        ⟨fun he => absurd he (by decide), fun hc => by omega⟩⟩
    · rw [if_neg h2]
      refine ⟨⟨fun he => absurd he.symm (by decide), fun hc => by omega⟩,
        ⟨fun he => absurd he.symm (by decide), fun hc => by omega⟩,
        ⟨fun _ => ⟨by omega, by omega⟩, fun _ => rfl⟩⟩

/-- C1 counterexample: a feed row with a negative quantity whose SKU is
in the catalog.  The selenium variant parses `-5` successfully, performs
no range check, and EMITS the record with quantity `-5` (skipped count
0), where the claim demands the row be absent from the output and
counted as skipped. -/
theorem selenium_emits_negative_quantity :
    pipelineSelenium "A1,-5\n" [("A1", ⟨"item1", "T"⟩)]
      = Except.ok ([⟨"A1", -5, "item1", ""⟩], 0)
    ∧ (⟨"A1", -5, "item1", ""⟩ : Update).quantity < 0 := by decide

/-- C1 amended: in the `secondStockUpdater` variant every emitted record
satisfies `0 ≤ quantity ≤ 1_000_000` (rows failing the parse or the
range check are dropped and counted); the selenium variant performs no
range check at all, so only the parse requirement holds there.  In both
variants every processed row is either emitted or counted as skipped:
`len(candidates) + skippedCount = totalRowsProcessed`. -/
theorem extractor_bound_and_count (valid : Catalog) (rows : List Row) :
    (∀ u ∈ (Second.read_csv rows valid).1,
      0 ≤ u.quantity ∧ u.quantity ≤ 1000000)
    ∧ (Second.read_csv rows valid).1.length + (Second.read_csv rows valid).2
        = rows.length
    ∧ (Selenium.read_csv rows valid).1.length + (Selenium.read_csv rows valid).2
        = rows.length := by
  refine ⟨?_, (read_csv_counts valid rows).1, (read_csv_counts valid rows).2⟩
  induction rows with
  | nil => intro u hu; simp [Second.read_csv] at hu
  | cons r rs ih =>
    intro u hu
    rcases h : Second.extractRow valid r with _ | u0
    · simp only [Second.read_csv, h] at hu
      exact ih u hu
    · simp only [Second.read_csv, h] at hu
      rcases List.mem_cons.mp hu with rfl | hu'
      · exact extractRow_bound_second valid r u h
      · exact ih u hu'

/-- C5 counterexample: the empty byte buffer decodes to the empty string
under every supported encoding, and the CSV parsing step
(`pandas.read_csv`) then raises `EmptyDataError`, which `read_csv` does
not catch — the Normalizer raises instead of yielding an empty row
sequence. -/
theorem normalizer_empty_buffer_raises :
    normalizeRows "" = Except.error "EmptyDataError" := by decide

/-- C5 amended: the decoding step never raises (undecodable bytes are
replaced inline), and on any decoded buffer with at least one non-blank
line in which no line has more fields than the first, the Normalizer
returns a row sequence with one row per non-blank line (short rows
padded); but a buffer with no non-blank lines raises `EmptyDataError`
and one whose later line is wider than the first raises `ParserError`,
so the Normalizer does not return on every decodable buffer. -/
theorem normalizer_ok_on_wellformed (content : String) (first : List Char)
    (rest : List (List Char))
    (hsplit : (splitChar '\n' content.toList).filter (fun l => l ≠ [])
      = first :: rest)
    (hwidth : ∀ l ∈ first :: rest,
      (splitChar (detectSep (sampleOf content)) l).length
        ≤ (splitChar (detectSep (sampleOf content)) first).length) :
    Except.map (fun rows => rows.length) (normalizeRows content)
      = Except.ok (rest.length + 1) := by
  rw [normalizeRows, pdReadCsv]
  simp only [hsplit]
  have hcond : ((first :: rest).map
        (fun l => splitChar (detectSep (sampleOf content)) l)).all
      (fun r => r.length
        ≤ (splitChar (detectSep (sampleOf content)) first).length) = true := by
    rw [List.all_eq_true]
    intro r hr
    rw [List.mem_map] at hr
    obtain ⟨l, hl, rfl⟩ := hr
    simpa using hwidth l hl
  rw [if_pos hcond]
  simp [Except.map]

/-- Witness for `normalizer_ok_on_wellformed` at the buffer
`"a,b\nc\n"`: two non-blank lines, the second shorter than the first. -/
theorem normalizer_ok_on_wellformed_witness :
    Except.map (fun rows => rows.length) (normalizeRows "a,b\nc\n")
      = Except.ok 2 :=
  normalizer_ok_on_wellformed "a,b\nc\n" ['a', ',', 'b'] [['c']]
    (by decide) (by decide)

/-- C6 counterexample: on the scenario feed the `secondStockUpdater`
extractor (quantity column 2) finds no third column in any row, so every
row's quantity parse fails: it yields ZERO candidates and 3 skipped
rows, not the two claimed candidates. -/
theorem scenario_second_extractor_empty :
    pipelineSecond "A1,10\nB2,-5\nC3,70\n"
      [("A1", ⟨"item1", "T1"⟩), ("C3", ⟨"item3", "T3"⟩)]
      = Except.ok ([], 3) := by decide

/-- C6 amended: the scenario holds for the selenium-variant extractor
(whose column mapping — quantity in column 1 — matches the feed): it
yields exactly the joined records for A1 and C3 with 1 row skipped (B2
is dropped because its SKU is not in the catalog index, not because its
quantity is negative — that variant has no range check); the mutator
slices them into exactly one batch of both items, and with an
error-free response the `secondStockUpdater` accounting reports
applied=2, errors=0. -/
theorem scenario_selenium_end_to_end :
    pipelineSelenium "A1,10\nB2,-5\nC3,70\n"
        [("A1", ⟨"item1", "T1"⟩), ("C3", ⟨"item3", "T3"⟩)]
      = Except.ok ([⟨"A1", 10, "item1", ""⟩, ⟨"C3", 70, "item3", ""⟩], 1)
    ∧ batches 250 [⟨"A1", 10, "item1", ""⟩, ⟨"C3", 70, "item3", ""⟩]
      = [[⟨"A1", 10, "item1", ""⟩, ⟨"C3", 70, "item3", ""⟩]]
    ∧ Second.update_inventory
        [⟨"A1", 10, "item1", ""⟩, ⟨"C3", 70, "item3", ""⟩] 250 (fun _ => [])
      = (2, 0) := by decide

/-- C7 counterexample: in the selenium variant, a pagination run whose
second response carries an application-level error list (and hence no
usable `data` object) RAISES (`data["data"]` fails) instead of stopping
early and returning the partial index accumulated from the first
page. -/
theorem selenium_error_page_raises :
    Selenium.fetch_inventory_items []
        [⟨true, false, some ⟨[⟨"P", [⟨"A1", "item1"⟩]⟩], true⟩⟩,
         ⟨true, true, none⟩]
      = Except.error "KeyError" := by decide

/-- C7 amended: in both variants a transport-level failure (non-success
status) aborts the index build with a fatal error; the early-stop with a
partial index on an application-level error list holds only in the
`secondStockUpdater` variant (the selenium variant never checks for the
error list and raises when the error response carries no data). -/
theorem fetch_inventory_failure_semantics (m : Catalog) (p : Page)
    (rest : List Page) :
    (p.statusOk = false →
      Second.fetch_inventory_items m (p :: rest) = Except.error "HTTPError"
      ∧ Selenium.fetch_inventory_items m (p :: rest) = Except.error "HTTPError")
    ∧ (p.statusOk = true → p.hasErrors = true →
      Second.fetch_inventory_items m (p :: rest) = Except.ok m) := by
  constructor
  · intro hst
    constructor
    · simp [Second.fetch_inventory_items, hst]
    · simp [Selenium.fetch_inventory_items, hst]
  · intro h1 h2
    simp [Second.fetch_inventory_items, h1, h2]

/-- Witness for `fetch_inventory_failure_semantics`: a bad-status page
aborts fatally; an error-carrying page returns the partial index. -/
theorem fetch_inventory_failure_semantics_witness :
    Second.fetch_inventory_items [] [⟨false, false, none⟩]
      = Except.error "HTTPError"
    ∧ Second.fetch_inventory_items [("A1", ⟨"item1", "T"⟩)] [⟨true, true, none⟩]
      = Except.ok [("A1", ⟨"item1", "T"⟩)] :=
  ⟨((fetch_inventory_failure_semantics [] ⟨false, false, none⟩ []).1 rfl).1,
   (fetch_inventory_failure_semantics [("A1", ⟨"item1", "T"⟩)]
     ⟨true, true, none⟩ []).2 rfl rfl⟩

/-- C10: a feed row whose SKU field is empty becomes NaN in pandas, and
`str(row[0]).strip()` turns it into the literal string `"nan"`, not
`""`.  Such a row is therefore not rejected for an empty SKU: against a
catalog whose only key is `"nan"` it matches and is emitted with that
row's quantity (in both variants); against a catalog without a `"nan"`
key it is dropped only by the failed lookup. -/
theorem nan_sku_matching :
    pipelineSelenium ",5\n" [("nan", ⟨"itemN", "TN"⟩)]
      = Except.ok ([⟨"nan", 5, "itemN", ""⟩], 0)
    ∧ pipelineSelenium ",5\n" [("A1", ⟨"item1", "T1"⟩)] = Except.ok ([], 1)
    ∧ pipelineSecond ",x,5\n" [("nan", ⟨"itemN", "TN"⟩)]
      = Except.ok ([⟨"nan", 5, "itemN", "TN"⟩], 0) := by decide

end StockUpdater
